import Mathlib

/-!
Shallow embedding of the mentat query-algebrizer fragment
`src/query-algebrizer/src/clauses/convert.rs`: conversion of `FnArg`
function arguments to `TypedValue`s by `ConjoiningClauses::typed_value_from_arg`.

Supporting types from `mentat_core` / `mentat_query` / `clauses` / `types`
are not part of the fragment; where their behaviour matters they are
modelled from the accompanying specification and marked as such.
-/

/-- The closed enumeration of semantic value types (`ValueType` in mentat-core). -/
inductive ValueType where
  | ref
  | long
  | double
  | string
  | boolean
  | instant
  | uuid
  | keyword
deriving DecidableEq

/-- `ValueTypeSet`: an immutable set over `ValueType`. -/
abbrev ValueTypeSet := Finset ValueType

namespace ValueTypeSet

/-- A singleton type set. -/
def of_one (t : ValueType) : ValueTypeSet := {t}

/-- The two integer-compatible types: Ref and Long. -/
def of_longs : ValueTypeSet := {ValueType.ref, ValueType.long}

/-- The two symbol-compatible types: Ref and Keyword. -/
def of_keywords : ValueTypeSet := {ValueType.ref, ValueType.keyword}

/-- The unrestricted set: every value type is admissible. -/
def any : ValueTypeSet :=
  {ValueType.ref, ValueType.long, ValueType.double, ValueType.string,
   ValueType.boolean, ValueType.instant, ValueType.uuid, ValueType.keyword}

/-- Membership test. -/
def contains (s : ValueTypeSet) (t : ValueType) : Bool := decide (t ∈ s)

/-- Emptiness test. -/
def is_empty (s : ValueTypeSet) : Bool := decide (s = ∅)

end ValueTypeSet

/-- Entity ids are 64-bit integers in the store; modelled as `Int`. -/
abbrev Entid := Int

/-- `TypedValue`: a concrete value paired with its resolved type.
Instants are modelled by their timestamp, doubles and uuids by their bit
patterns — the fragment only moves these payloads, never computes with them. -/
inductive TypedValue where
  | ref (e : Entid)
  | boolean (b : Bool)
  | long (x : Int)
  | double (bits : Nat)
  | string (s : String)
  | keyword (k : String)
  | instant (micros : Int)
  | uuid (bits : Nat)
deriving DecidableEq

/-- Modelled from the spec: the resolved type tag of a `TypedValue`
(mentat-core's `TypedValue::value_type`, absent from the fragment). -/
def TypedValue.value_type : TypedValue → ValueType
  | .ref _ => ValueType.ref
  | .boolean _ => ValueType.boolean
  | .long _ => ValueType.long
  | .double _ => ValueType.double
  | .string _ => ValueType.string
  | .keyword _ => ValueType.keyword
  | .instant _ => ValueType.instant
  | .uuid _ => ValueType.uuid

/-- Modelled from the spec: `accommodates_integer(Ref, x)` is true iff the
integer literal falls within the legal range of a reference id (non-negative;
spec Scenario B places -5 outside the range). mentat-core's `SQLValueType`
implementation is absent from the fragment; only the `Ref` case is consulted
by `typed_value_from_arg`. -/
def ValueType.accommodates_integer (t : ValueType) (x : Int) : Bool :=
  match t with
  | ValueType.ref => decide (0 ≤ x)
  | ValueType.long => true
  | ValueType.double => true
  | _ => false

/-- A query variable, interned by name; modelled by its name. -/
abbrev Variable := String

/-- `NonIntegerConstant` (mentat_query): strongly-typed constant literals. -/
inductive NonIntegerConstant where
  | boolean (b : Bool)
  | bigInteger (n : Int)
  | float (bits : Nat)
  | text (s : String)
  | instant (micros : Int)
  | uuid (bits : Nat)
deriving DecidableEq

/-- `FnArg` (mentat_query): the syntactic shapes a function argument may take. -/
inductive FnArg where
  | entidOrInteger (x : Int)
  | identOrKeyword (name : String)
  | «variable» (v : Variable)
  | constant (c : NonIntegerConstant)
  | srcVar (s : String)
  | vector (args : List FnArg)


/-- Modelled from the spec: the catalog service mapping symbolic names to
stable numeric references (mentat-core's `Schema`, absent from the fragment). -/
structure Schema where
  entids : String → Option Entid

/-- Catalog lookup: symbolic name to entity id, if present. -/
def Schema.get_entid (s : Schema) (name : String) : Option Entid :=
  s.entids name

/-- `EmptyBecause`: structured reason a clause is statically unsatisfiable;
the two constructors produced by this fragment. -/
inductive EmptyBecause where
  | typeMismatch (var : Variable) (existing : ValueTypeSet) (desired : ValueTypeSet)
  | unresolvedIdent (name : String)
deriving DecidableEq

/-- `ValueConversion`: the resolution result — a resolved value or a
structured "cannot match" reason. -/
inductive ValueConversion where
  | val (v : TypedValue)
  | impossible (e : EmptyBecause)
deriving DecidableEq

/-- The hard-failure channel: the `ErrorKind` variants this fragment raises
via `bail!`, plus a distinguished constructor modelling the `unimplemented!()`
panic on big-integer constants (a fatal failure, not a `ValueConversion`). -/
inductive ErrorKind where
  | unboundVariable (name : String)
  | invalidGroundConstant
  | unimplementedBigInteger
deriving DecidableEq

/-- Modelled from the spec: the slice of `ConjoiningClauses` state read by
`typed_value_from_arg` — the declared input variables and the map of
already-bound input values (owned by the enclosing algebrizer). -/
structure ConjoiningClauses where
  input_variables : List Variable
  value_bindings : Variable → Option TypedValue

/-- Bound-value lookup over caller-owned state. -/
def ConjoiningClauses.bound_value (cc : ConjoiningClauses) (v : Variable) :
    Option TypedValue :=
  cc.value_bindings v

/-- The `coerce_to_typed_value!` macro: unambiguous coercion of a constant of
type `t` against the admissible set `types`. -/
def coerce_to_typed_value (var : Variable) (types : ValueTypeSet)
    (t : ValueType) (val : TypedValue) : Except ErrorKind ValueConversion :=
  Except.ok (if !types.contains t then
      ValueConversion.impossible
        (EmptyBecause.typeMismatch var types (ValueTypeSet.of_one t))
    else
      ValueConversion.val val)

/-- `ConjoiningClauses::typed_value_from_arg`: convert the provided `FnArg`
to a `TypedValue`, resolving ambiguity against `known_types`, the catalog,
and already-bound input values. -/
def ConjoiningClauses.typed_value_from_arg (cc : ConjoiningClauses)
    (schema : Schema) (var : Variable) (arg : FnArg)
    (known_types : ValueTypeSet) : Except ErrorKind ValueConversion :=
  if known_types = ∅ then
    -- If this happens, it likely means the pattern has already failed!
    Except.ok (ValueConversion.impossible
      (EmptyBecause.typeMismatch var known_types ValueTypeSet.any))
  else
    match arg with
    -- Longs are potentially ambiguous: they might be longs or entids.
    | FnArg.entidOrInteger x =>
      match ValueType.accommodates_integer ValueType.ref x,
            known_types.contains ValueType.ref,
            known_types.contains ValueType.long with
      | true, true, true =>
        -- Ambiguous: this arg could be an entid or a long. We default to long.
        Except.ok (ValueConversion.val (TypedValue.long x))
      | true, true, false =>
        -- This can only be a ref.
        Except.ok (ValueConversion.val (TypedValue.ref x))
      | _, false, true =>
        -- This can only be a long.
        Except.ok (ValueConversion.val (TypedValue.long x))
      | false, true, _ =>
        -- This isn't a valid ref, but that's the type to which this must conform!
        Except.ok (ValueConversion.impossible
          (EmptyBecause.typeMismatch var known_types ValueTypeSet.of_longs))
      | _, false, false =>
        -- Non-overlapping type sets.
        Except.ok (ValueConversion.impossible
          (EmptyBecause.typeMismatch var known_types ValueTypeSet.of_longs))
    -- If you definitely want to look up an ident, do it before running the query.
    | FnArg.identOrKeyword x =>
      match known_types.contains ValueType.ref,
            known_types.contains ValueType.keyword with
      | true, true =>
        -- Ambiguous: this could be a keyword or an ident. Default to keyword.
        Except.ok (ValueConversion.val (TypedValue.keyword x))
      | true, false =>
        -- This can only be an ident. Look it up!
        match (schema.get_entid x).map TypedValue.ref with
        | some e => Except.ok (ValueConversion.val e)
        | none => Except.ok (ValueConversion.impossible (EmptyBecause.unresolvedIdent x))
      | false, true =>
        Except.ok (ValueConversion.val (TypedValue.keyword x))
      | false, false =>
        Except.ok (ValueConversion.impossible
          (EmptyBecause.typeMismatch var known_types ValueTypeSet.of_keywords))
    | FnArg.«variable» in_var =>
      if !(cc.input_variables.contains in_var) then
        Except.error (ErrorKind.unboundVariable in_var)
      else
        match cc.bound_value in_var with
        -- The type is already known if it's a bound variable….
        | some in_value => Except.ok (ValueConversion.val in_value)
        | none =>
          -- The variable is present in `:in`, but it hasn't yet been provided.
          Except.error (ErrorKind.unboundVariable in_var)
    -- This isn't implemented yet.
    | FnArg.constant (NonIntegerConstant.bigInteger _) =>
      Except.error ErrorKind.unimplementedBigInteger
    -- These don't make sense here.
    | FnArg.vector _ => Except.error ErrorKind.invalidGroundConstant
    | FnArg.srcVar _ => Except.error ErrorKind.invalidGroundConstant
    -- These are all straightforward.
    | FnArg.constant (NonIntegerConstant.boolean x) =>
      coerce_to_typed_value var known_types ValueType.boolean (TypedValue.boolean x)
    | FnArg.constant (NonIntegerConstant.instant x) =>
      coerce_to_typed_value var known_types ValueType.instant (TypedValue.instant x)
    | FnArg.constant (NonIntegerConstant.uuid x) =>
      coerce_to_typed_value var known_types ValueType.uuid (TypedValue.uuid x)
    | FnArg.constant (NonIntegerConstant.float x) =>
      coerce_to_typed_value var known_types ValueType.double (TypedValue.double x)
    | FnArg.constant (NonIntegerConstant.text x) =>
      coerce_to_typed_value var known_types ValueType.string (TypedValue.string x)

/-- Membership in a `ValueTypeSet` as a proposition. -/
theorem ValueTypeSet.contains_iff (s : ValueTypeSet) (t : ValueType) :
    s.contains t = true ↔ t ∈ s := by
  simp [ValueTypeSet.contains]

/-- Helper: a set containing a type is nonempty. -/
theorem ValueTypeSet.ne_empty_of_contains (s : ValueTypeSet) (t : ValueType)
    (h : s.contains t = true) : s ≠ ∅ := by
  intro he
  subst he
  simp [ValueTypeSet.contains] at h

/-- C1: when `known_types` is the empty set, `typed_value_from_arg`
short-circuits and returns `Impossible(TypeMismatch{var, existing: empty,
desired: any()})`, for every clause state, schema, variable and argument
shape — in particular the result does not depend on the catalog or on the
bound-value map, and no hard error is raised. -/
theorem typed_value_from_arg_empty_short_circuits (cc : ConjoiningClauses)
    (schema : Schema) (var : Variable) (arg : FnArg)
    (known_types : ValueTypeSet) (hk : known_types = ∅) :
    cc.typed_value_from_arg schema var arg known_types =
      Except.ok (ValueConversion.impossible
        (EmptyBecause.typeMismatch var known_types ValueTypeSet.any)) := by
  subst hk
  simp [ConjoiningClauses.typed_value_from_arg]

/-- Witness for C1 at a concrete input: a `Vector` argument, an arbitrary
catalog and bound-value state, `known_types = ∅`. -/
theorem typed_value_from_arg_empty_short_circuits_witness :
    (∅ : ValueTypeSet) = ∅ ∧
      ConjoiningClauses.typed_value_from_arg
        ⟨[("in")], fun _ => some (TypedValue.long 7)⟩
        ⟨fun _ => some 99⟩ ("x") (FnArg.vector []) ∅ =
        Except.ok (ValueConversion.impossible
          (EmptyBecause.typeMismatch ("x") ∅ ValueTypeSet.any)) :=
  ⟨rfl, typed_value_from_arg_empty_short_circuits _ _ _ _ _ rfl⟩

/-- C2: an integer literal within reference range, with both Ref and Long
admissible, deterministically resolves to `Val(Long(x))`, never `Ref`. -/
theorem entid_or_integer_ambiguous_defaults_to_long (cc : ConjoiningClauses)
    (schema : Schema) (var : Variable) (x : Int) (known_types : ValueTypeSet)
    (hacc : ValueType.accommodates_integer ValueType.ref x = true)
    (href : known_types.contains ValueType.ref = true)
    (hlong : known_types.contains ValueType.long = true) :
    cc.typed_value_from_arg schema var (FnArg.entidOrInteger x) known_types =
      Except.ok (ValueConversion.val (TypedValue.long x)) := by
  have hne := ValueTypeSet.ne_empty_of_contains known_types ValueType.ref href
  simp [ConjoiningClauses.typed_value_from_arg, hne, hacc, href, hlong]

/-- Witness for C2 at spec Scenario A: `known_types = {Ref, Long}`,
argument `EntidOrInteger(42)`. -/
theorem entid_or_integer_ambiguous_defaults_to_long_witness :
    ValueType.accommodates_integer ValueType.ref 42 = true ∧
    ValueTypeSet.of_longs.contains ValueType.ref = true ∧
    ValueTypeSet.of_longs.contains ValueType.long = true ∧
    ConjoiningClauses.typed_value_from_arg ⟨[], fun _ => none⟩
        ⟨fun _ => none⟩ ("x") (FnArg.entidOrInteger 42) ValueTypeSet.of_longs =
      Except.ok (ValueConversion.val (TypedValue.long 42)) :=
  ⟨by decide, by decide, by decide,
    entid_or_integer_ambiguous_defaults_to_long _ _ _ 42 _
      (by decide) (by decide) (by decide)⟩

/-- C3: with both Ref and Keyword admissible, `IdentOrKeyword(x)` resolves to
`Val(Keyword(x))` for every schema — the quantification over `schema` shows
the catalog is never consulted: any two catalogs give the same result. -/
theorem ident_or_keyword_ambiguous_defaults_to_keyword (cc : ConjoiningClauses)
    (schema : Schema) (var : Variable) (x : String) (known_types : ValueTypeSet)
    (href : known_types.contains ValueType.ref = true)
    (hkw : known_types.contains ValueType.keyword = true) :
    cc.typed_value_from_arg schema var (FnArg.identOrKeyword x) known_types =
      Except.ok (ValueConversion.val (TypedValue.keyword x)) := by
  have hne := ValueTypeSet.ne_empty_of_contains known_types ValueType.ref href
  simp [ConjoiningClauses.typed_value_from_arg, hne, href, hkw]

/-- Witness for C3: `known_types = {Ref, Keyword}`, name "foo", with a
catalog that does map "foo" — the keyword still wins. -/
theorem ident_or_keyword_ambiguous_defaults_to_keyword_witness :
    ValueTypeSet.of_keywords.contains ValueType.ref = true ∧
    ValueTypeSet.of_keywords.contains ValueType.keyword = true ∧
    ConjoiningClauses.typed_value_from_arg ⟨[], fun _ => none⟩
        ⟨fun _ => some 17⟩ ("x") (FnArg.identOrKeyword ("foo"))
        ValueTypeSet.of_keywords =
      Except.ok (ValueConversion.val (TypedValue.keyword ("foo"))) :=
  ⟨by decide, by decide,
    ident_or_keyword_ambiguous_defaults_to_keyword _ _ _ _ _
      (by decide) (by decide)⟩

/-- C4: an integer literal outside reference range, with Ref admissible,
yields `Impossible(TypeMismatch{var, existing: known_types, desired:
of_longs()})`, whether or not Long is also admissible. -/
theorem entid_or_integer_out_of_ref_range_impossible (cc : ConjoiningClauses)
    (schema : Schema) (var : Variable) (x : Int) (known_types : ValueTypeSet)
    (hacc : ValueType.accommodates_integer ValueType.ref x = false)
    (href : known_types.contains ValueType.ref = true) :
    cc.typed_value_from_arg schema var (FnArg.entidOrInteger x) known_types =
      Except.ok (ValueConversion.impossible
        (EmptyBecause.typeMismatch var known_types ValueTypeSet.of_longs)) := by
  have hne := ValueTypeSet.ne_empty_of_contains known_types ValueType.ref href
  cases hlong : known_types.contains ValueType.long <;>
    simp [ConjoiningClauses.typed_value_from_arg, hne, hacc, href, hlong]

/-- Witness for C4 at spec Scenario B: `known_types = {Ref}`,
argument `EntidOrInteger(-5)`. -/
theorem entid_or_integer_out_of_ref_range_impossible_witness :
    ValueType.accommodates_integer ValueType.ref (-5) = false ∧
    (ValueTypeSet.of_one ValueType.ref).contains ValueType.ref = true ∧
    ConjoiningClauses.typed_value_from_arg ⟨[], fun _ => none⟩
        ⟨fun _ => none⟩ ("x") (FnArg.entidOrInteger (-5))
        (ValueTypeSet.of_one ValueType.ref) =
      Except.ok (ValueConversion.impossible
        (EmptyBecause.typeMismatch ("x") (ValueTypeSet.of_one ValueType.ref)
          ValueTypeSet.of_longs)) :=
  ⟨by decide, by decide,
    entid_or_integer_out_of_ref_range_impossible _ _ _ (-5) _
      (by decide) (by decide)⟩

/-- C5: for a `Variable(v)` argument with nonempty `known_types`: if `v` is
not a declared input variable the call fails hard with `UnboundVariable(v)`;
if it is declared but has no bound value it also fails with
`UnboundVariable(v)`; if it is declared and bound to `tv` the call succeeds
with `Val(tv)`, the stored bound value. -/
theorem typed_value_from_arg_variable_cases (cc : ConjoiningClauses)
    (schema : Schema) (var : Variable) (v : Variable) (tv : TypedValue)
    (known_types : ValueTypeSet) (hne : known_types ≠ ∅) :
    (cc.input_variables.contains v = false →
      cc.typed_value_from_arg schema var (FnArg.«variable» v) known_types =
        Except.error (ErrorKind.unboundVariable v)) ∧
    (cc.input_variables.contains v = true → cc.bound_value v = none →
      cc.typed_value_from_arg schema var (FnArg.«variable» v) known_types =
        Except.error (ErrorKind.unboundVariable v)) ∧
    (cc.input_variables.contains v = true → cc.bound_value v = some tv →
      cc.typed_value_from_arg schema var (FnArg.«variable» v) known_types =
        Except.ok (ValueConversion.val tv)) := by
  refine ⟨fun h1 => ?_, fun h1 h2 => ?_, fun h1 h2 => ?_⟩
  · simp only [ConjoiningClauses.typed_value_from_arg, if_neg hne, h1]
    rfl
  · simp only [ConjoiningClauses.typed_value_from_arg, if_neg hne, h1, h2]
    rfl
  · simp only [ConjoiningClauses.typed_value_from_arg, if_neg hne, h1, h2]
    rfl

/-- Witness for C5: input variables {"in", "late"}, only "in" bound (to
`Long(7)`); "out" is undeclared, "late" declared but unbound. -/
theorem typed_value_from_arg_variable_cases_witness :
    ConjoiningClauses.typed_value_from_arg
        ⟨[("in"), ("late")],
         fun w => if w = ("in") then some (TypedValue.long 7) else none⟩
        ⟨fun _ => none⟩ ("x") (FnArg.«variable» ("in"))
        (ValueTypeSet.of_one ValueType.long) =
      Except.ok (ValueConversion.val (TypedValue.long 7)) ∧
    ConjoiningClauses.typed_value_from_arg
        ⟨[("in"), ("late")],
         fun w => if w = ("in") then some (TypedValue.long 7) else none⟩
        ⟨fun _ => none⟩ ("x") (FnArg.«variable» ("late"))
        (ValueTypeSet.of_one ValueType.long) =
      Except.error (ErrorKind.unboundVariable ("late")) ∧
    ConjoiningClauses.typed_value_from_arg
        ⟨[("in"), ("late")],
         fun w => if w = ("in") then some (TypedValue.long 7) else none⟩
        ⟨fun _ => none⟩ ("x") (FnArg.«variable» ("out"))
        (ValueTypeSet.of_one ValueType.long) =
      Except.error (ErrorKind.unboundVariable ("out")) :=
  ⟨(typed_value_from_arg_variable_cases _ _ _ ("in") (TypedValue.long 7) _
      (by decide)).2.2 (by decide) (by decide),
   (typed_value_from_arg_variable_cases _ _ _ ("late") (TypedValue.long 0) _
      (by decide)).2.1 (by decide) (by decide),
   (typed_value_from_arg_variable_cases _ _ _ ("out") (TypedValue.long 0) _
      (by decide)).1 (by decide)⟩

/-- C6: with Ref admissible and Keyword excluded, `IdentOrKeyword(name)`
performs the catalog lookup: a hit yields `Val(Ref(e))`, a miss yields the
structured `Impossible(UnresolvedIdent(name))` — never a hard error. -/
theorem ident_or_keyword_ref_only_lookup (cc : ConjoiningClauses)
    (schema : Schema) (var : Variable) (name : String) (e : Entid)
    (known_types : ValueTypeSet)
    (href : known_types.contains ValueType.ref = true)
    (hkw : known_types.contains ValueType.keyword = false) :
    (schema.get_entid name = some e →
      cc.typed_value_from_arg schema var (FnArg.identOrKeyword name) known_types =
        Except.ok (ValueConversion.val (TypedValue.ref e))) ∧
    (schema.get_entid name = none →
      cc.typed_value_from_arg schema var (FnArg.identOrKeyword name) known_types =
        Except.ok (ValueConversion.impossible (EmptyBecause.unresolvedIdent name))) := by
  have hne := ValueTypeSet.ne_empty_of_contains known_types ValueType.ref href
  refine ⟨fun h => ?_, fun h => ?_⟩ <;>
    simp [ConjoiningClauses.typed_value_from_arg, hne, href, hkw, h]

/-- Witness for C6: `known_types = {Ref}`; the catalog maps "foo" to 17 and
has no entry for "bar" (spec Scenario D). -/
theorem ident_or_keyword_ref_only_lookup_witness :
    ConjoiningClauses.typed_value_from_arg ⟨[], fun _ => none⟩
        ⟨fun n => if n = ("foo") then some 17 else none⟩ ("x")
        (FnArg.identOrKeyword ("foo")) (ValueTypeSet.of_one ValueType.ref) =
      Except.ok (ValueConversion.val (TypedValue.ref 17)) ∧
    ConjoiningClauses.typed_value_from_arg ⟨[], fun _ => none⟩
        ⟨fun n => if n = ("foo") then some 17 else none⟩ ("x")
        (FnArg.identOrKeyword ("bar")) (ValueTypeSet.of_one ValueType.ref) =
      Except.ok (ValueConversion.impossible (EmptyBecause.unresolvedIdent ("bar"))) :=
  ⟨(ident_or_keyword_ref_only_lookup _ _ _ ("foo") 17 _
      (by decide) (by decide)).1 (by decide),
   (ident_or_keyword_ref_only_lookup _ _ _ ("bar") 17 _
      (by decide) (by decide)).2 (by decide)⟩

/-- C8: a `Constant(BigInteger(_))` argument with nonempty `known_types`
always fails with the distinguished unimplemented-feature error — never
`Val`, never `Impossible`, never a silent numeric conversion. -/
theorem big_integer_constant_unimplemented (cc : ConjoiningClauses)
    (schema : Schema) (var : Variable) (n : Int) (known_types : ValueTypeSet)
    (hne : known_types ≠ ∅) :
    cc.typed_value_from_arg schema var
        (FnArg.constant (NonIntegerConstant.bigInteger n)) known_types =
      Except.error ErrorKind.unimplementedBigInteger := by
  simp [ConjoiningClauses.typed_value_from_arg, hne]

/-- Witness for C8: a big-integer constant beyond 64 bits, `known_types =
{Long}`. -/
theorem big_integer_constant_unimplemented_witness :
    (ValueTypeSet.of_one ValueType.long : ValueTypeSet) ≠ ∅ ∧
    ConjoiningClauses.typed_value_from_arg ⟨[], fun _ => none⟩ ⟨fun _ => none⟩
        ("x") (FnArg.constant (NonIntegerConstant.bigInteger (2 ^ 80)))
        (ValueTypeSet.of_one ValueType.long) =
      Except.error ErrorKind.unimplementedBigInteger :=
  ⟨by decide,
   big_integer_constant_unimplemented _ _ _ (2 ^ 80) _ (by decide)⟩

/-- C9: `Vector(_)` and `SrcVar(_)` arguments with nonempty `known_types`
fail hard with `InvalidGroundConstant`, an `Err` distinguishable from every
`Ok(Impossible(..))` outcome. -/
theorem vector_srcvar_invalid_ground_constant (cc : ConjoiningClauses)
    (schema : Schema) (var : Variable) (args : List FnArg) (s : String)
    (known_types : ValueTypeSet) (hne : known_types ≠ ∅) :
    cc.typed_value_from_arg schema var (FnArg.vector args) known_types =
      Except.error ErrorKind.invalidGroundConstant ∧
    cc.typed_value_from_arg schema var (FnArg.srcVar s) known_types =
      Except.error ErrorKind.invalidGroundConstant := by
  refine ⟨?_, ?_⟩ <;> simp [ConjoiningClauses.typed_value_from_arg, hne]

/-- Witness for C9: an empty vector and the default source variable, with
`known_types = {Long}`. -/
theorem vector_srcvar_invalid_ground_constant_witness :
    ConjoiningClauses.typed_value_from_arg ⟨[], fun _ => none⟩ ⟨fun _ => none⟩
        ("x") (FnArg.vector []) (ValueTypeSet.of_one ValueType.long) =
      Except.error ErrorKind.invalidGroundConstant ∧
    ConjoiningClauses.typed_value_from_arg ⟨[], fun _ => none⟩ ⟨fun _ => none⟩
        ("x") (FnArg.srcVar ("$")) (ValueTypeSet.of_one ValueType.long) =
      Except.error ErrorKind.invalidGroundConstant :=
  ⟨(vector_srcvar_invalid_ground_constant _ _ _ [] ("$") _ (by decide)).1,
   (vector_srcvar_invalid_ground_constant _ _ _ [] ("$") _ (by decide)).2⟩

/-- Helper: the coercion macro yields `Val` when the target type is
admissible and the `TypeMismatch` reason otherwise. -/
theorem coerce_to_typed_value_spec (var : Variable) (types : ValueTypeSet)
    (t : ValueType) (val : TypedValue) :
    (types.contains t = true →
      coerce_to_typed_value var types t val =
        Except.ok (ValueConversion.val val)) ∧
    (types.contains t = false →
      coerce_to_typed_value var types t val =
        Except.ok (ValueConversion.impossible
          (EmptyBecause.typeMismatch var types (ValueTypeSet.of_one t)))) := by
  constructor <;> intro hc <;> simp [coerce_to_typed_value, hc]

/-- Helper: with nonempty `known_types`, each straightforward constant arm
delegates to the coercion macro at its corresponding type. -/
theorem constant_arms_delegate (cc : ConjoiningClauses) (schema : Schema)
    (var : Variable) (known_types : ValueTypeSet) (hne : known_types ≠ ∅)
    (b : Bool) (ti : Int) (u : Nat) (f : Nat) (s : String) :
    cc.typed_value_from_arg schema var
        (FnArg.constant (NonIntegerConstant.boolean b)) known_types =
      coerce_to_typed_value var known_types ValueType.boolean
        (TypedValue.boolean b) ∧
    cc.typed_value_from_arg schema var
        (FnArg.constant (NonIntegerConstant.instant ti)) known_types =
      coerce_to_typed_value var known_types ValueType.instant
        (TypedValue.instant ti) ∧
    cc.typed_value_from_arg schema var
        (FnArg.constant (NonIntegerConstant.uuid u)) known_types =
      coerce_to_typed_value var known_types ValueType.uuid
        (TypedValue.uuid u) ∧
    cc.typed_value_from_arg schema var
        (FnArg.constant (NonIntegerConstant.float f)) known_types =
      coerce_to_typed_value var known_types ValueType.double
        (TypedValue.double f) ∧
    cc.typed_value_from_arg schema var
        (FnArg.constant (NonIntegerConstant.text s)) known_types =
      coerce_to_typed_value var known_types ValueType.string
        (TypedValue.string s) := by
  refine ⟨?_, ?_, ?_, ?_, ?_⟩ <;>
    simp only [ConjoiningClauses.typed_value_from_arg, if_neg hne]

/-- C7: for each unambiguous constant — Boolean, Instant, Uuid, Float, Text
— with nonempty `known_types`: if the corresponding `ValueType` (Boolean,
Instant, Uuid, Double, String) is admissible, the result is `Val` of the
matching `TypedValue` with the same payload; otherwise it is
`Impossible(TypeMismatch{var, existing: known_types, desired: of_one(t)})`. -/
theorem constant_coercion_cases (cc : ConjoiningClauses) (schema : Schema)
    (var : Variable) (known_types : ValueTypeSet) (b : Bool) (ti : Int)
    (u : Nat) (f : Nat) (s : String) (hne : known_types ≠ ∅) :
    ((known_types.contains ValueType.boolean = true →
      cc.typed_value_from_arg schema var
          (FnArg.constant (NonIntegerConstant.boolean b)) known_types =
        Except.ok (ValueConversion.val (TypedValue.boolean b))) ∧
     (known_types.contains ValueType.boolean = false →
      cc.typed_value_from_arg schema var
          (FnArg.constant (NonIntegerConstant.boolean b)) known_types =
        Except.ok (ValueConversion.impossible (EmptyBecause.typeMismatch var
          known_types (ValueTypeSet.of_one ValueType.boolean))))) ∧
    ((known_types.contains ValueType.instant = true →
      cc.typed_value_from_arg schema var
          (FnArg.constant (NonIntegerConstant.instant ti)) known_types =
        Except.ok (ValueConversion.val (TypedValue.instant ti))) ∧
     (known_types.contains ValueType.instant = false →
      cc.typed_value_from_arg schema var
          (FnArg.constant (NonIntegerConstant.instant ti)) known_types =
        Except.ok (ValueConversion.impossible (EmptyBecause.typeMismatch var
          known_types (ValueTypeSet.of_one ValueType.instant))))) ∧
    ((known_types.contains ValueType.uuid = true →
      cc.typed_value_from_arg schema var
          (FnArg.constant (NonIntegerConstant.uuid u)) known_types =
        Except.ok (ValueConversion.val (TypedValue.uuid u))) ∧
     (known_types.contains ValueType.uuid = false →
      cc.typed_value_from_arg schema var
          (FnArg.constant (NonIntegerConstant.uuid u)) known_types =
        Except.ok (ValueConversion.impossible (EmptyBecause.typeMismatch var
          known_types (ValueTypeSet.of_one ValueType.uuid))))) ∧
    ((known_types.contains ValueType.double = true →
      cc.typed_value_from_arg schema var
          (FnArg.constant (NonIntegerConstant.float f)) known_types =
        Except.ok (ValueConversion.val (TypedValue.double f))) ∧
     (known_types.contains ValueType.double = false →
      cc.typed_value_from_arg schema var
          (FnArg.constant (NonIntegerConstant.float f)) known_types =
        Except.ok (ValueConversion.impossible (EmptyBecause.typeMismatch var
          known_types (ValueTypeSet.of_one ValueType.double))))) ∧
    ((known_types.contains ValueType.string = true →
      cc.typed_value_from_arg schema var
          (FnArg.constant (NonIntegerConstant.text s)) known_types =
        Except.ok (ValueConversion.val (TypedValue.string s))) ∧
     (known_types.contains ValueType.string = false →
      cc.typed_value_from_arg schema var
          (FnArg.constant (NonIntegerConstant.text s)) known_types =
        Except.ok (ValueConversion.impossible (EmptyBecause.typeMismatch var
          known_types (ValueTypeSet.of_one ValueType.string))))) := by
  obtain ⟨e1, e2, e3, e4, e5⟩ :=
    constant_arms_delegate cc schema var known_types hne b ti u f s
  rw [e1, e2, e3, e4, e5]
  exact ⟨coerce_to_typed_value_spec var known_types ValueType.boolean
           (TypedValue.boolean b),
         coerce_to_typed_value_spec var known_types ValueType.instant
           (TypedValue.instant ti),
         coerce_to_typed_value_spec var known_types ValueType.uuid
           (TypedValue.uuid u),
         coerce_to_typed_value_spec var known_types ValueType.double
           (TypedValue.double f),
         coerce_to_typed_value_spec var known_types ValueType.string
           (TypedValue.string s)⟩

/-- Witness for C7: a Boolean constant accepted under `known_types =
{Boolean}` and rejected under `known_types = {String}` (spec Scenario E). -/
theorem constant_coercion_cases_witness :
    ConjoiningClauses.typed_value_from_arg ⟨[], fun _ => none⟩ ⟨fun _ => none⟩
        ("x") (FnArg.constant (NonIntegerConstant.boolean true))
        (ValueTypeSet.of_one ValueType.boolean) =
      Except.ok (ValueConversion.val (TypedValue.boolean true)) ∧
    ConjoiningClauses.typed_value_from_arg ⟨[], fun _ => none⟩ ⟨fun _ => none⟩
        ("x") (FnArg.constant (NonIntegerConstant.boolean true))
        (ValueTypeSet.of_one ValueType.string) =
      Except.ok (ValueConversion.impossible (EmptyBecause.typeMismatch ("x")
        (ValueTypeSet.of_one ValueType.string)
        (ValueTypeSet.of_one ValueType.boolean))) :=
  ⟨(constant_coercion_cases _ _ _ (ValueTypeSet.of_one ValueType.boolean)
      true 0 0 0 ("") (by decide)).1.1 (by decide),
   (constant_coercion_cases _ _ _ (ValueTypeSet.of_one ValueType.string)
      true 0 0 0 ("") (by decide)).1.2 (by decide)⟩

/-- C10: whenever `typed_value_from_arg` succeeds with `Val(v)` on an
argument that is not a `Variable`, the resolved type of `v` is a member of
`known_types`; `Variable` arguments pass the bound value through unchecked,
and there is a state where the returned value's type lies outside
`known_types`. -/
theorem ok_val_type_mem_known_types (cc : ConjoiningClauses) (schema : Schema)
    (var : Variable) (arg : FnArg) (known_types : ValueTypeSet)
    (v : TypedValue) (hnv : ∀ w, arg ≠ FnArg.«variable» w)
    (hres : cc.typed_value_from_arg schema var arg known_types =
      Except.ok (ValueConversion.val v)) :
    v.value_type ∈ known_types ∧
    ∃ (cc2 : ConjoiningClauses) (schema2 : Schema) (var2 : Variable)
      (w : Variable) (kt : ValueTypeSet) (tv : TypedValue),
      cc2.typed_value_from_arg schema2 var2 (FnArg.«variable» w) kt =
        Except.ok (ValueConversion.val tv) ∧ tv.value_type ∉ kt := by
  constructor
  · by_cases hk : known_types = ∅
    · rw [hk] at hres
      simp [ConjoiningClauses.typed_value_from_arg] at hres
    · cases arg with
      | entidOrInteger x =>
        cases hacc : ValueType.accommodates_integer ValueType.ref x <;>
          cases href : known_types.contains ValueType.ref <;>
            cases hlong : known_types.contains ValueType.long <;>
              simp [ConjoiningClauses.typed_value_from_arg, hk, hacc, href,
                hlong] at hres <;>
              first
                | (subst hres; exact (ValueTypeSet.contains_iff _ _).mp hlong)
                | (subst hres; exact (ValueTypeSet.contains_iff _ _).mp href)
      | identOrKeyword name =>
        cases href : known_types.contains ValueType.ref
        · cases hkw : known_types.contains ValueType.keyword
          · simp [ConjoiningClauses.typed_value_from_arg, hk, href, hkw] at hres
          · simp [ConjoiningClauses.typed_value_from_arg, hk, href, hkw] at hres
            subst hres
            exact (ValueTypeSet.contains_iff _ _).mp hkw
        · cases hkw : known_types.contains ValueType.keyword
          · cases hent : schema.get_entid name
            · simp [ConjoiningClauses.typed_value_from_arg, hk, href, hkw,
                hent] at hres
            · simp [ConjoiningClauses.typed_value_from_arg, hk, href, hkw,
                hent] at hres
              subst hres
              exact (ValueTypeSet.contains_iff _ _).mp href
          · simp [ConjoiningClauses.typed_value_from_arg, hk, href, hkw] at hres
            subst hres
            exact (ValueTypeSet.contains_iff _ _).mp hkw
      | «variable» w => exact absurd rfl (hnv w)
      | constant c =>
        cases c with
        | boolean b =>
          cases hc : known_types.contains ValueType.boolean <;>
            simp [ConjoiningClauses.typed_value_from_arg,
              coerce_to_typed_value, hk, hc] at hres
          subst hres
          exact (ValueTypeSet.contains_iff _ _).mp hc
        | bigInteger n =>
          simp [ConjoiningClauses.typed_value_from_arg, hk] at hres
        | float f =>
          cases hc : known_types.contains ValueType.double <;>
            simp [ConjoiningClauses.typed_value_from_arg,
              coerce_to_typed_value, hk, hc] at hres
          subst hres
          exact (ValueTypeSet.contains_iff _ _).mp hc
        | text s =>
          cases hc : known_types.contains ValueType.string <;>
            simp [ConjoiningClauses.typed_value_from_arg,
              coerce_to_typed_value, hk, hc] at hres
          subst hres
          exact (ValueTypeSet.contains_iff _ _).mp hc
        | instant ti =>
          cases hc : known_types.contains ValueType.instant <;>
            simp [ConjoiningClauses.typed_value_from_arg,
              coerce_to_typed_value, hk, hc] at hres
          subst hres
          exact (ValueTypeSet.contains_iff _ _).mp hc
        | uuid u =>
          cases hc : known_types.contains ValueType.uuid <;>
            simp [ConjoiningClauses.typed_value_from_arg,
              coerce_to_typed_value, hk, hc] at hres
          subst hres
          exact (ValueTypeSet.contains_iff _ _).mp hc
      | srcVar s =>
        simp [ConjoiningClauses.typed_value_from_arg, hk] at hres
      | vector args =>
        simp [ConjoiningClauses.typed_value_from_arg, hk] at hres
  · refine ⟨⟨[("w")], fun _ => some (TypedValue.string ("s"))⟩, ⟨fun _ => none⟩,
      ("x"), ("w"), ValueTypeSet.of_one ValueType.long,
      TypedValue.string ("s"), ?_, ?_⟩
    · rfl
    · decide

/-- Witness for C10: `EntidOrInteger(42)` under `known_types = {Ref, Long}`
resolves to `Long(42)`, whose type is in the set. -/
theorem ok_val_type_mem_known_types_witness :
    (∀ w, FnArg.entidOrInteger 42 ≠ FnArg.«variable» w) ∧
    ((TypedValue.long 42).value_type ∈ ValueTypeSet.of_longs ∧
      ∃ (cc2 : ConjoiningClauses) (schema2 : Schema) (var2 : Variable)
        (w : Variable) (kt : ValueTypeSet) (tv : TypedValue),
        cc2.typed_value_from_arg schema2 var2 (FnArg.«variable» w) kt =
          Except.ok (ValueConversion.val tv) ∧ tv.value_type ∉ kt) :=
  ⟨fun _ h => FnArg.noConfusion h,
   ok_val_type_mem_known_types ⟨[], fun _ => none⟩ ⟨fun _ => none⟩ ("x")
     (FnArg.entidOrInteger 42) ValueTypeSet.of_longs (TypedValue.long 42)
     (fun _ h => FnArg.noConfusion h) (by rfl)⟩
